import Mathlib

/-!
Verification of the `AlertConfig` React component and the `apiClient`
HTTP wrapper (files `src/services/api.js` and
`src/components/faultmanagement/mainpage/AlertConfig.js`).

The component is shallowly embedded as a pure state machine.  Component
state (`useState` hooks) becomes a `ComponentState` record; each event
handler or effect becomes a pure transition function taking the outcome
of its asynchronous HTTP call as an explicit argument (`FetchResult`),
mirroring the `try { await ... } catch` structure: the `.ok` branch is
the code after the `await`, the `.err` branch is the `catch` block.
HTTP requests issued by the handlers are reified as `Request` values.
-/

namespace AlertConfig

/-- A JavaScript value stored in a form field: either a string or a
number.  Numbers arise only from `parseFloat(e.target.value)`; since no
property here depends on the numeric value, only on the string/number
distinction, a number is represented by the source text handed to
`parseFloat`. -/
inductive JSVal where
  | str (s : String)
  | num (parsedFrom : String)
  deriving Repr, DecidableEq

/-- `true` exactly on string values. -/
def JSVal.isStr : JSVal → Bool
  | .str _ => true
  | .num _ => false

/-- `true` exactly on number values. -/
def JSVal.isNum : JSVal → Bool
  | .str _ => false
  | .num _ => true

/-- The `formData` state object of `AlertConfig`. -/
structure FormData where
  alert_title : JSVal
  alert_message : JSVal
  field_name : JSVal
  lower_bound : JSVal
  higher_bound : JSVal
  deriving Repr, DecidableEq

/-- The initial `formData` (all fields `''`), also the value the form is
reset to after a successful submission. -/
def emptyFormData : FormData :=
  { alert_title := .str ""
    alert_message := .str ""
    field_name := .str ""
    lower_bound := .str ""
    higher_bound := .str "" }

/-- The local state of the `AlertConfig` component: the five `useState`
hooks `tables`, `selectedTable`, `columns`, `formData`, `error`,
`success`. -/
structure ComponentState where
  tables : List String
  selectedTable : String
  columns : List String
  formData : FormData
  error : String
  success : String
  deriving Repr, DecidableEq

/-- Component state right after mount. -/
def initialState : ComponentState :=
  { tables := []
    selectedTable := ""
    columns := []
    formData := emptyFormData
    error := ""
    success := "" }

/-- An HTTP request issued through `apiClient`. -/
inductive Request where
  | get (path : String)
  | post (path : String) (body : FormData)
  deriving Repr, DecidableEq

/-- The path (with query string) of a request. -/
def Request.path : Request → String
  | .get p => p
  | .post p _ => p

/-- Path of `GET /fault_management/tables_from_db?database={db}`. -/
def tablesFromDbPath (database : String) : String :=
  "/fault_management/tables_from_db?database=" ++ database

/-- Path of
`GET /fault_management/columns_from_db?database={db}&table={table}`. -/
def columnsFromDbPath (database table : String) : String :=
  "/fault_management/columns_from_db?database=" ++ database
    ++ "&table=" ++ table

/-- Path of `POST /fault_management/add_alert?database={db}`. -/
def addAlertPath (database : String) : String :=
  "/fault_management/add_alert?database=" ++ database

/-- Outcome of an awaited `apiClient` call: `ok` carries the relevant
part of `response.data`, `err` is any rejection caught by the
surrounding `catch`. -/
inductive FetchResult (α : Type) where
  | ok (data : α)
  | err
  deriving Repr, DecidableEq

/-- State transition performed by `fetchTables` once its GET settles.
On success: `setTables(response.data.tables); setSelectedTable('')`.
On failure: `setError('Failed to fetch tables')`.  The function is
total: the `catch` block turns any rejection into a state update, so no
exception escapes. -/
def fetchTablesResolve (s : ComponentState)
    (result : FetchResult (List String)) : ComponentState :=
  match result with
  | .ok ts => { s with tables := ts, selectedTable := "" }
  | .err => { s with error := "Failed to fetch tables" }

/-- State transition performed by `fetchColumns` once its GET settles.
On success: `setColumns(response.data.columns)` and
`setFormData(prev => ({ ...prev, field_name: '' }))`.
On failure: `setError('Failed to fetch columns')`. -/
def fetchColumnsResolve (s : ComponentState)
    (result : FetchResult (List String)) : ComponentState :=
  match result with
  | .ok cs =>
      { s with
        columns := cs
        formData := { s.formData with field_name := .str "" } }
  | .err => { s with error := "Failed to fetch columns" }

/-- Requests issued by the first `useEffect` (dependency
`[selectedDatabase]`): `fetchTables` runs iff `selectedDatabase` is
truthy (non-empty). -/
def tablesEffectRequests (selectedDatabase : String) : List Request :=
  if selectedDatabase = "" then []
  else [.get (tablesFromDbPath selectedDatabase)]

/-- Requests issued by the second `useEffect` (dependency
`[selectedTable, selectedDatabase]`): `fetchColumns` runs iff
`selectedTable` is truthy (non-empty); the inner early return repeats
the same guard. -/
def columnsEffectRequests (selectedDatabase selectedTable : String) :
    List Request :=
  if selectedTable = "" then []
  else [.get (columnsFromDbPath selectedDatabase selectedTable)]

/-- Requests fired when the `selectedDatabase` prop changes to `newDb`.
Both effects re-run: the first lists `[selectedDatabase]` as its
dependency array, the second `[selectedTable, selectedDatabase]`, so a
database change re-runs the columns effect too, with the still-current
table selection. -/
def requestsOnDatabaseChange (newDb : String) (s : ComponentState) :
    List Request :=
  tablesEffectRequests newDb ++ columnsEffectRequests newDb s.selectedTable

/-- Requests fired when the user picks `newTable` in the table
dropdown (`setSelectedTable`): only the columns effect re-runs, the
tables effect's dependency `selectedDatabase` did not change. -/
def requestsOnTableSelect (selectedDatabase newTable : String) :
    List Request :=
  columnsEffectRequests selectedDatabase newTable

/-- The synchronous part of picking a table in the dropdown. -/
def selectTable (s : ComponentState) (newTable : String) :
    ComponentState :=
  { s with selectedTable := newTable }

/-- A user edit of one form control.  The numeric inputs store
`parseFloat(e.target.value)`, the text inputs and the field dropdown
store `e.target.value` itself. -/
inductive FormEvent where
  | editTitle (value : String)
  | editMessage (value : String)
  | editFieldName (value : String)
  | editLowerBound (value : String)
  | editHigherBound (value : String)
  deriving Repr, DecidableEq

/-- The `onChange` handlers of the five form controls. -/
def handleFormEvent (s : ComponentState) (e : FormEvent) :
    ComponentState :=
  match e with
  | .editTitle v =>
      { s with formData := { s.formData with alert_title := .str v } }
  | .editMessage v =>
      { s with formData := { s.formData with alert_message := .str v } }
  | .editFieldName v =>
      { s with formData := { s.formData with field_name := .str v } }
  | .editLowerBound v =>
      { s with formData := { s.formData with lower_bound := .num v } }
  | .editHigherBound v =>
      { s with formData := { s.formData with higher_bound := .num v } }

/-- Everything observable about one run of `handleSubmit`. -/
structure SubmitOutcome where
  preventedDefault : Bool
  requests : List Request
  finalState : ComponentState
  refreshCalls : Nat
  deriving Repr, DecidableEq

/-- The submit handler.  `e.preventDefault()`, then
`setError(''); setSuccess('')`, then one POST of `formData`; on
resolution `setSuccess('Alert added successfully'); refreshAlerts()`
and the form reset; on rejection `setError('Failed to add alert')`. -/
def handleSubmit (s : ComponentState) (selectedDatabase : String)
    (postResult : FetchResult Unit) : SubmitOutcome :=
  let s1 : ComponentState := { s with error := "", success := "" }
  match postResult with
  | .ok _ =>
      { preventedDefault := true
        requests := [.post (addAlertPath selectedDatabase) s1.formData]
        finalState :=
          { s1 with
            success := "Alert added successfully"
            formData := emptyFormData }
        refreshCalls := 1 }
  | .err =>
      { preventedDefault := true
        requests := [.post (addAlertPath selectedDatabase) s1.formData]
        finalState := { s1 with error := "Failed to add alert" }
        refreshCalls := 0 }

/-- The `apiClient` wrapper from `src/services/api.js`: the `axios`
instance configuration. -/
structure ApiClientConfig where
  baseURL : String
  contentType : String
  deriving Repr, DecidableEq

/-- `axios.create({ baseURL: 'http://localhost:5000',
headers: { 'Content-Type': 'application/json' } })`. -/
def apiClient : ApiClientConfig :=
  { baseURL := "http://localhost:5000"
    contentType := "application/json" }

/-- A request addresses one of the three backend endpoints consumed by
the component. -/
def usesKnownEndpoint (r : Request) : Prop :=
  (∃ db, r.path = tablesFromDbPath db) ∨
  (∃ db t, r.path = columnsFromDbPath db t) ∨
  (∃ db, r.path = addAlertPath db)

/-- One atomic transition of the component: a fetch settling, a
dropdown selection, a form edit, or a full submit run. -/
inductive Step : ComponentState → ComponentState → Prop where
  | tablesResolve (s : ComponentState) (r : FetchResult (List String)) :
      Step s (fetchTablesResolve s r)
  | columnsResolve (s : ComponentState) (r : FetchResult (List String)) :
      Step s (fetchColumnsResolve s r)
  | tableSelect (s : ComponentState) (t : String) :
      Step s (selectTable s t)
  | formEvent (s : ComponentState) (e : FormEvent) :
      Step s (handleFormEvent s e)
  | submit (s : ComponentState) (db : String) (r : FetchResult Unit) :
      Step s (handleSubmit s db r).finalState

/-- States reachable from the mount state. -/
def Reachable (s : ComponentState) : Prop :=
  Relation.ReflTransGen Step initialState s

/-- Number of `formData` fields on which two drafts differ. -/
def changedFields (a b : FormData) : Nat :=
  (if a.alert_title = b.alert_title then 0 else 1) +
  (if a.alert_message = b.alert_message then 0 else 1) +
  (if a.field_name = b.field_name then 0 else 1) +
  (if a.lower_bound = b.lower_bound then 0 else 1) +
  (if a.higher_bound = b.higher_bound then 0 else 1)

/-- The typing discipline `formData` actually maintains:
`alert_title`, `alert_message`, `field_name` are always strings;
each bound is either the empty string (mount / post-reset value) or
a number (once edited through its numeric input). -/
def FormTypesOK (f : FormData) : Prop :=
  f.alert_title.isStr = true ∧
  f.alert_message.isStr = true ∧
  f.field_name.isStr = true ∧
  (f.lower_bound = .str "" ∨ f.lower_bound.isNum = true) ∧
  (f.higher_bound = .str "" ∨ f.higher_bound.isNum = true)

end AlertConfig

open AlertConfig

/-- C1: every run of `handleSubmit` prevents the default form action,
issues exactly one POST of the current draft to
`/fault_management/add_alert?database={selectedDatabase}`; on success
the success message is set (the prior error cleared), `refreshAlerts`
is invoked exactly once and every draft field is reset to the empty
string; on failure the fixed string `Failed to add alert` is shown. -/
theorem submit_behaviour (s : ComponentState) (db : String)
    (r : FetchResult Unit) :
    (handleSubmit s db r).preventedDefault = true ∧
    (handleSubmit s db r).requests
      = [Request.post (addAlertPath db) s.formData] ∧
    (match r with
     | .ok _ =>
        (handleSubmit s db r).finalState.success
            = "Alert added successfully" ∧
        (handleSubmit s db r).finalState.error = "" ∧
        (handleSubmit s db r).refreshCalls = 1 ∧
        (handleSubmit s db r).finalState.formData.alert_title
            = JSVal.str "" ∧
        (handleSubmit s db r).finalState.formData.alert_message
            = JSVal.str "" ∧
        (handleSubmit s db r).finalState.formData.field_name
            = JSVal.str "" ∧
        (handleSubmit s db r).finalState.formData.lower_bound
            = JSVal.str "" ∧
        (handleSubmit s db r).finalState.formData.higher_bound
            = JSVal.str ""
     | .err =>
        (handleSubmit s db r).finalState.error = "Failed to add alert" ∧
        (handleSubmit s db r).finalState.success = "") := by
  cases r <;>
    simp [handleSubmit, emptyFormData]

/-- C5: a failed table fetch leaves `tables` (and everything except the
error message) unchanged and displays `Failed to fetch tables`; the
handler is a total function — the `catch` block converts the rejection
into a state update, so no exception escapes to the caller. -/
theorem tables_fetch_failure_frame (s : ComponentState) :
    (fetchTablesResolve s .err).tables = s.tables ∧
    (fetchTablesResolve s .err).error = "Failed to fetch tables" ∧
    (fetchTablesResolve s .err).columns = s.columns ∧
    (fetchTablesResolve s .err).formData = s.formData ∧
    (fetchTablesResolve s .err).success = s.success := by
  simp [fetchTablesResolve]

/-- C10: a successful table fetch replaces `tables` and clears the
table selection, and modifies nothing else: `columns`, the whole
`formData` draft (hence `field_name`), and both messages keep their
previous values — so a column list fetched for the previous database
persists. -/
theorem tables_fetch_success_frame (s : ComponentState)
    (ts : List String) :
    (fetchTablesResolve s (.ok ts)).tables = ts ∧
    (fetchTablesResolve s (.ok ts)).selectedTable = "" ∧
    (fetchTablesResolve s (.ok ts)).columns = s.columns ∧
    (fetchTablesResolve s (.ok ts)).formData = s.formData ∧
    (fetchTablesResolve s (.ok ts)).error = s.error ∧
    (fetchTablesResolve s (.ok ts)).success = s.success := by
  simp [fetchTablesResolve]

/-- A state in which a successful submission has just been reported;
used to exhibit that a later failing submit clears the success
message. -/
def stateAfterSuccess : ComponentState :=
  { initialState with
    success := "Alert added successfully"
    formData := { emptyFormData with alert_title := .str "cpu high" } }

/-- C9 counterexample: the claim says a failing submit changes only the
error message, but the submit handler first executes `setSuccess('')`,
so a previously displayed success message is also cleared: from
`stateAfterSuccess` (success = `Alert added successfully`) a failing
submit ends with success = `""`. -/
theorem submit_failure_changes_success :
    stateAfterSuccess.success = "Alert added successfully" ∧
    (handleSubmit stateAfterSuccess "db" .err).finalState.success = "" := by
  constructor <;> rfl

/-- C9 amended: on a failing submit the draft `formData` is left exactly
as before, `refreshAlerts` is not invoked, and only the two message
fields change: the error becomes `Failed to add alert` and the success
message is cleared; `tables`, `selectedTable` and `columns` are
untouched. -/
theorem submit_failure_frame (s : ComponentState) (db : String) :
    (handleSubmit s db .err).finalState.formData = s.formData ∧
    (handleSubmit s db .err).refreshCalls = 0 ∧
    (handleSubmit s db .err).finalState.error = "Failed to add alert" ∧
    (handleSubmit s db .err).finalState.success = "" ∧
    (handleSubmit s db .err).finalState.tables = s.tables ∧
    (handleSubmit s db .err).finalState.selectedTable = s.selectedTable ∧
    (handleSubmit s db .err).finalState.columns = s.columns := by
  simp [handleSubmit]

/-- A state with a table selected and a column list plus `field_name`
carried over from it; used against the claims that a database change
clears them. -/
def stateWithTableSelected : ComponentState :=
  { initialState with
    selectedTable := "readings"
    columns := ["temp"]
    formData := { emptyFormData with field_name := .str "temp" } }

/-- C2 counterexample: after the table fetch triggered by a database
change resolves, neither clearing is as the claim states.  If the fetch
fails, the table selection is not cleared (it stays `readings`); and
even if it succeeds, the column list and `field_name` are not cleared
(the columns effect is guarded by a non-empty `selectedTable`, so
resetting the selection to `''` triggers no clearing). -/
theorem database_change_clears_nothing_downstream :
    (fetchTablesResolve stateWithTableSelected .err).selectedTable
        = "readings" ∧
    (fetchTablesResolve stateWithTableSelected (.ok ["t2"])).columns
        = ["temp"] ∧
    (fetchTablesResolve stateWithTableSelected
        (.ok ["t2"])).formData.field_name = JSVal.str "temp" := by
  refine ⟨rfl, rfl, rfl⟩

/-- C2 amended: after the table fetch triggered by a database change
resolves successfully, the table selection is cleared to empty while
the column list and the draft's `field_name` are left unchanged; if the
fetch fails, the table selection too is left unchanged. -/
theorem database_change_downstream_state (s : ComponentState)
    (ts : List String) :
    (fetchTablesResolve s (.ok ts)).selectedTable = "" ∧
    (fetchTablesResolve s (.ok ts)).columns = s.columns ∧
    (fetchTablesResolve s (.ok ts)).formData = s.formData ∧
    (fetchTablesResolve s .err).selectedTable = s.selectedTable ∧
    (fetchTablesResolve s .err).columns = s.columns ∧
    (fetchTablesResolve s .err).formData = s.formData := by
  simp [fetchTablesResolve]

/-- A second state with a stale table selection, for the C3
counterexample. -/
def stateWithStaleSelection : ComponentState :=
  { initialState with selectedTable := "metrics" }

/-- C3 counterexample: the claim says the table selection is cleared
whether the fetch succeeds or fails, but `setSelectedTable('')` sits
inside the `try` block after the `await`, so a failed fetch leaves the
selection untouched: from a state with selection `metrics`, a failed
fetch still has selection `metrics`, not `""`. -/
theorem failed_tables_fetch_keeps_selection :
    (fetchTablesResolve stateWithStaleSelection .err).selectedTable
        = "metrics" ∧
    (fetchTablesResolve stateWithStaleSelection .err).error
        = "Failed to fetch tables" := by
  refine ⟨rfl, rfl⟩

/-- C3 amended: when the table fetch triggered by a database change
fails, the fixed message `Failed to fetch tables` is shown and the
table selection is left unchanged; only when it succeeds is the table
selection cleared to empty. -/
theorem tables_fetch_selection_reset (s : ComponentState)
    (ts : List String) :
    (fetchTablesResolve s .err).error = "Failed to fetch tables" ∧
    (fetchTablesResolve s .err).selectedTable = s.selectedTable ∧
    (fetchTablesResolve s (.ok ts)).selectedTable = "" := by
  simp [fetchTablesResolve]

/-- A state mid-edit, with a field chosen; used against the claim that
a failed column fetch still clears `field_name`. -/
def stateWithFieldChosen : ComponentState :=
  { initialState with
    selectedTable := "readings"
    columns := ["pressure"]
    formData := { emptyFormData with field_name := .str "pressure" } }

/-- C4 counterexample: the claim says `field_name` is cleared whether
the column fetch succeeds or fails, but the reset sits inside the `try`
block after the `await`, so a failed fetch leaves `field_name`
untouched: from a state with `field_name = "pressure"`, a failed column
fetch still has `field_name = "pressure"`, not `""`. -/
theorem failed_columns_fetch_keeps_field_name :
    (fetchColumnsResolve stateWithFieldChosen .err).formData.field_name
        = JSVal.str "pressure" ∧
    (fetchColumnsResolve stateWithFieldChosen .err).error
        = "Failed to fetch columns" := by
  refine ⟨rfl, rfl⟩

/-- C4 amended: on a table-selection change, if the new selection is
empty no column fetch is issued and nothing besides the selection
itself changes; otherwise exactly one column fetch for
`(selectedDatabase, selectedTable)` is issued; when that fetch fails
the fixed message `Failed to fetch columns` is shown and `field_name`
is left unchanged; only when it succeeds is `field_name` cleared to
empty. -/
theorem table_select_columns_effect (s : ComponentState) (db t : String)
    (cs : List String) :
    (t = "" → requestsOnTableSelect db t = []) ∧
    (t ≠ "" → requestsOnTableSelect db t
        = [Request.get (columnsFromDbPath db t)]) ∧
    (selectTable s t).tables = s.tables ∧
    (selectTable s t).columns = s.columns ∧
    (selectTable s t).formData = s.formData ∧
    (selectTable s t).error = s.error ∧
    (selectTable s t).success = s.success ∧
    (fetchColumnsResolve s .err).error = "Failed to fetch columns" ∧
    (fetchColumnsResolve s .err).formData.field_name
        = s.formData.field_name ∧
    (fetchColumnsResolve s (.ok cs)).formData.field_name
        = JSVal.str "" := by
  refine ⟨?_, ?_, rfl, rfl, rfl, rfl, rfl, rfl, rfl, rfl⟩ <;>
    intro h <;>
    simp [requestsOnTableSelect, columnsEffectRequests, h]

/-- Witness for the amended C4 at a concrete table selection. -/
theorem table_select_columns_effect_witness :
    requestsOnTableSelect "sensors" "readings"
      = [Request.get (columnsFromDbPath "sensors" "readings")] :=
  (table_select_columns_effect initialState "sensors" "readings" []).2.1
    (by decide)

/-- A state in the middle of the cascade, with a table still selected
when the database changes. -/
def stateMidCascade : ComponentState :=
  { initialState with selectedTable := "t1" }

/-- C6 counterexample: the columns effect lists `selectedDatabase` in
its dependency array, so a database change with a non-empty table
selection fires a column fetch in addition to the table fetch: from a
state with `selectedTable = "t1"`, changing the database to `db2`
issues two GETs, not only the table fetch the claim allows. -/
theorem database_change_extra_column_fetch :
    requestsOnDatabaseChange "db2" stateMidCascade
      = [Request.get (tablesFromDbPath "db2"),
         Request.get (columnsFromDbPath "db2" "t1")] ∧
    requestsOnDatabaseChange "db2" stateMidCascade
      ≠ [Request.get (tablesFromDbPath "db2")] := by
  refine ⟨rfl, by decide⟩

/-- C6 amended: selecting a non-empty database triggers exactly one GET
to the tables endpoint with that database in the query string, plus —
when a non-empty table is currently selected — exactly one GET to the
columns endpoint for the new database and that table; selecting a
non-empty table triggers exactly one GET to the columns endpoint with
the `(database, table)` pair; selecting the empty table triggers no
fetch. -/
theorem selection_event_requests (db t : String) (s : ComponentState)
    (hdb : db ≠ "") :
    (s.selectedTable = "" →
      requestsOnDatabaseChange db s
        = [Request.get (tablesFromDbPath db)]) ∧
    (s.selectedTable ≠ "" →
      requestsOnDatabaseChange db s
        = [Request.get (tablesFromDbPath db),
           Request.get (columnsFromDbPath db s.selectedTable)]) ∧
    (t ≠ "" → requestsOnTableSelect db t
        = [Request.get (columnsFromDbPath db t)]) ∧
    requestsOnTableSelect db "" = [] := by
  refine ⟨?_, ?_, ?_, ?_⟩ <;>
    first
      | (intro h
         simp [requestsOnDatabaseChange, tablesEffectRequests,
               columnsEffectRequests, requestsOnTableSelect, hdb, h])
      | simp [requestsOnTableSelect, columnsEffectRequests]

/-- Witness for the amended C6 at a concrete database selection. -/
theorem selection_event_requests_witness :
    requestsOnDatabaseChange "sensors" initialState
      = [Request.get (tablesFromDbPath "sensors")] :=
  (selection_event_requests "sensors" "readings" initialState
      (by decide)).1 rfl

/-- The tables GET addresses a known endpoint. -/
theorem usesKnownEndpoint_tables (db : String) :
    usesKnownEndpoint (Request.get (tablesFromDbPath db)) :=
  Or.inl ⟨db, rfl⟩

/-- The columns GET addresses a known endpoint. -/
theorem usesKnownEndpoint_columns (db t : String) :
    usesKnownEndpoint (Request.get (columnsFromDbPath db t)) :=
  Or.inr (Or.inl ⟨db, t, rfl⟩)

/-- The add-alert POST addresses a known endpoint. -/
theorem usesKnownEndpoint_addAlert (db : String) (body : FormData) :
    usesKnownEndpoint (Request.post (addAlertPath db) body) :=
  Or.inr (Or.inr ⟨db, rfl⟩)

/-- Every member of a tables-effect request list addresses a known
endpoint. -/
theorem tablesEffectRequests_known (db : String) (req : Request)
    (h : req ∈ tablesEffectRequests db) : usesKnownEndpoint req := by
  unfold tablesEffectRequests at h
  split at h
  · cases h
  · simp at h
    subst h
    exact usesKnownEndpoint_tables db

/-- Every member of a columns-effect request list addresses a known
endpoint. -/
theorem columnsEffectRequests_known (db t : String) (req : Request)
    (h : req ∈ columnsEffectRequests db t) : usesKnownEndpoint req := by
  unfold columnsEffectRequests at h
  split at h
  · cases h
  · simp at h
    subst h
    exact usesKnownEndpoint_columns db t

/-- C7: the HTTP wrapper is configured with base URL
`http://localhost:5000` and default header
`Content-Type: application/json`, and every request the component
issues — through any of its three triggers — addresses one of the three
endpoint paths `/fault_management/tables_from_db`,
`/fault_management/columns_from_db`, `/fault_management/add_alert`. -/
theorem api_client_and_endpoints (s : ComponentState) (db t : String)
    (r : FetchResult Unit) :
    apiClient.baseURL = "http://localhost:5000" ∧
    apiClient.contentType = "application/json" ∧
    (∀ req ∈ requestsOnDatabaseChange db s, usesKnownEndpoint req) ∧
    (∀ req ∈ requestsOnTableSelect db t, usesKnownEndpoint req) ∧
    (∀ req ∈ (handleSubmit s db r).requests, usesKnownEndpoint req) := by
  refine ⟨rfl, rfl, ?_, ?_, ?_⟩
  · intro req hreq
    rcases List.mem_append.mp hreq with h | h
    · exact tablesEffectRequests_known db req h
    · exact columnsEffectRequests_known db s.selectedTable req h
  · intro req hreq
    exact columnsEffectRequests_known db t req hreq
  · intro req hreq
    cases r <;> simp [handleSubmit] at hreq <;>
      (subst hreq; exact usesKnownEndpoint_addAlert db s.formData)

/-- Witness for C7 at a concrete request. -/
theorem api_client_and_endpoints_witness :
    usesKnownEndpoint (Request.get (tablesFromDbPath "sensors")) :=
  (api_client_and_endpoints initialState "sensors" "readings"
      (.ok ())).2.2.1
    (Request.get (tablesFromDbPath "sensors")) (by decide)

/-- C8 counterexample: the claim's typing invariant says `lower_bound`
and `higher_bound` are numbers, but the draft created on mount holds
the empty string `''` in both (and the post-submit reset restores
exactly that), so at the mount state both bounds are strings, not
numbers. -/
theorem initial_bounds_are_strings :
    initialState.formData.lower_bound = JSVal.str "" ∧
    JSVal.isNum initialState.formData.lower_bound = false ∧
    JSVal.isNum initialState.formData.higher_bound = false := by
  refine ⟨rfl, rfl, rfl⟩

/-- C8 amended: in every reachable state, `alert_title`,
`alert_message` and `field_name` are strings, while `lower_bound` and
`higher_bound` are each either the empty string (their value on mount
and after each successful-submit reset) or a number (once edited
through their numeric inputs); the draft is created all-empty on mount,
each user input mutates at most one field, and every successful
submission resets the draft to all-empty. -/
theorem formData_discipline :
    (∀ s, Reachable s → FormTypesOK s.formData) ∧
    initialState.formData = emptyFormData ∧
    (∀ s e, changedFields s.formData (handleFormEvent s e).formData ≤ 1) ∧
    (∀ s db,
      (handleSubmit s db (.ok ())).finalState.formData = emptyFormData) := by
  refine ⟨?_, rfl, ?_, ?_⟩
  · intro s hs
    induction hs with
    | refl => exact ⟨rfl, rfl, rfl, Or.inl rfl, Or.inl rfl⟩
    | tail hab hbc ih =>
      cases hbc with
      | tablesResolve r => cases r <;> exact ih
      | columnsResolve r =>
        cases r with
        | ok cs => exact ⟨ih.1, ih.2.1, rfl, ih.2.2.2.1, ih.2.2.2.2⟩
        | err => exact ih
      | tableSelect t => exact ih
      | formEvent e =>
        cases e with
        | editTitle v =>
            exact ⟨rfl, ih.2.1, ih.2.2.1, ih.2.2.2.1, ih.2.2.2.2⟩
        | editMessage v =>
            exact ⟨ih.1, rfl, ih.2.2.1, ih.2.2.2.1, ih.2.2.2.2⟩
        | editFieldName v =>
            exact ⟨ih.1, ih.2.1, rfl, ih.2.2.2.1, ih.2.2.2.2⟩
        | editLowerBound v =>
            exact ⟨ih.1, ih.2.1, ih.2.2.1, Or.inr rfl, ih.2.2.2.2⟩
        | editHigherBound v =>
            exact ⟨ih.1, ih.2.1, ih.2.2.1, ih.2.2.2.1, Or.inr rfl⟩
      | submit db r =>
        cases r with
        | ok u => exact ⟨rfl, rfl, rfl, Or.inl rfl, Or.inl rfl⟩
        | err => exact ih
  · intro s e
    cases e <;>
      simp [handleFormEvent, changedFields] <;>
      split <;> simp
  · intro s db
    rfl

/-- Witness for the amended C8 at a concrete reachable state: the state
reached from mount by typing `3.5` into the lower-bound input. -/
theorem formData_discipline_witness :
    FormTypesOK
      (handleFormEvent initialState (.editLowerBound "3.5")).formData :=
  formData_discipline.1 _
    (Relation.ReflTransGen.single
      (Step.formEvent initialState (.editLowerBound "3.5")))
